import Mathlib

/-!
Shallow embedding of the KeyAuth Discord admin bot
(src/index.ts and src/keyauth.ts).

The bot is a command dispatcher over a KeyAuth API client.  Network I/O
(fetch), the locally generated fallback UUID and the locale date renderer
are modelled as an explicit World record supplied per invocation; every
source function becomes a pure Lean function threading the client state
(the cached session id) and a trace of issued HTTP requests.
-/

namespace AdminBot

/-- A subscription record inside the untyped info payload, as read by the
user command of the dispatcher (fields subscription, key, expiry). -/
structure Subscription where
  subscription : String
  key : String
  expiry : String
deriving DecidableEq, Repr

/-- The untyped info payload of a KeyAuth response, restricted to the
fields the dispatcher actually reads: user lookup fields and statistics
fields, each possibly absent. -/
structure Info where
  username : Option String := none
  ip : Option String := none
  hwid : Option String := none
  createdate : Option String := none
  lastlogin : Option String := none
  subscriptions : Option (List Subscription) := none
  users : Option Int := none
  licenses : Option Int := none
  online : Option Int := none
deriving DecidableEq, Repr

/-- KeyAuthResponse of keyauth.ts: success flag, optional message,
optional untyped info payload. -/
structure KeyAuthResponse where
  success : Bool
  message : Option String := none
  info : Option Info := none
deriving DecidableEq, Repr

/-- KeyAuthConfig of keyauth.ts. -/
structure KeyAuthConfig where
  name : String
  ownerid : String
  version : String
  url : String
deriving DecidableEq, Repr

/-- The mutable state of a KeyAuthClient instance: its configuration and
the cached session id (null until first acquisition). -/
structure ClientState where
  config : KeyAuthConfig
  sessionId : Option String := none
deriving DecidableEq, Repr

/-- An outbound HTTP request, recorded as its form-encoded body (ordered
key/value list).  The init handshake of getSessionId is distinguished
from operation requests issued by makeRequest. -/
inductive Request where
  | init (body : List (String × String))
  | op (body : List (String × String))
deriving DecidableEq, Repr

/-- Outcome of the init handshake fetch in getSessionId, as observed by
the code: the fetch or JSON parse threw (caught and logged), the response
had a non-ok HTTP status, or a parsed body with a success flag and an
optional session id. -/
inductive InitOutcome where
  | netError
  | httpError
  | body (success : Bool) (sessionid : Option String)
deriving DecidableEq, Repr

/-- Outcome of the operation fetch in makeRequest: a thrown exception
(network error or JSON parse failure) with its message, a non-ok HTTP
status with status code and text, or a parsed KeyAuthResponse. -/
inductive FetchOutcome where
  | exn (msg : String)
  | httpError (status : Nat) (statusText : String)
  | ok (resp : KeyAuthResponse)
deriving DecidableEq, Repr

/-- The environment of one invocation: what the init fetch would return,
the random UUID crypto.randomUUID would produce, what the operation fetch
would return, and the locale date renderer toLocaleDateString composed
with the Date constructor. -/
structure World where
  initOutcome : InitOutcome
  fallbackUuid : String
  fetchOutcome : FetchOutcome
  fmtDate : String → String

/-- JavaScript a || b on an optional string: the string when present and
nonempty (truthy), else the fallback. -/
def jsOr (o : Option String) (fallback : String) : String :=
  match o with
  | some s => if s = "" then fallback else s
  | none => fallback

/-- JavaScript String.prototype.trim: strip leading and trailing
whitespace (structurally recursive so concrete values reduce). -/
def jsTrim (s : String) : String :=
  String.mk (((s.data.dropWhile Char.isWhitespace).reverse.dropWhile Char.isWhitespace).reverse)

/-- Environment variables read by the KeyAuthClient constructor. -/
structure Env where
  keyauthName : Option String := none
  keyauthOwnerId : Option String := none
  keyauthVersion : Option String := none
  keyauthUrl : Option String := none
deriving DecidableEq, Repr

/-- The config record built by the constructor: process.env values with
JavaScript || defaults (empty for the mandatory two). -/
def mkConfig (env : Env) : KeyAuthConfig :=
  { name := jsOr env.keyauthName ""
    ownerid := jsOr env.keyauthOwnerId ""
    version := jsOr env.keyauthVersion "2.0"
    url := jsOr env.keyauthUrl "https://keyauth.win/api/1.3/" }

/-- KeyAuthClient constructor: builds the config and throws when name or
ownerid is falsy; otherwise the client starts with no cached session. -/
def mkClient (env : Env) : Except String ClientState :=
  let config := mkConfig env
  if config.name = "" || config.ownerid = "" then
    .error "KeyAuth configuration is missing. Please set KEYAUTH_NAME and KEYAUTH_OWNER_ID environment variables."
  else
    .ok { config := config, sessionId := none }

/-- Body of the init handshake request. -/
def initBody (cfg : KeyAuthConfig) : List (String × String) :=
  [("type", "init"), ("ver", cfg.version), ("name", cfg.name), ("ownerid", cfg.ownerid)]

/-- The session id the init handshake yields when it succeeds: requires an
ok HTTP status, a parsed body with success truthy and a truthy (nonempty)
sessionid.  none means every failure shape, which the code answers with
the local fallback. -/
def initAttempt (w : World) : Option String :=
  match w.initOutcome with
  | .netError => none
  | .httpError => none
  | .body success sessionid =>
    if success then
      match sessionid with
      | some sid => if sid = "" then none else some sid
      | none => none
    else none

/-- Result of getSessionId: the id to use, the updated client state and
the requests issued. -/
structure SessionResult where
  sessionId : String
  state : ClientState
  trace : List Request
deriving DecidableEq, Repr

/-- getSessionId of keyauth.ts: returns the cached id when present;
otherwise issues the init request and caches the server session id on
full success, or the locally generated fallback UUID on any failure. -/
def getSessionId (st : ClientState) (w : World) : SessionResult :=
  match st.sessionId with
  | some s => { sessionId := s, state := st, trace := [] }
  | none =>
    match initAttempt w with
    | some sid =>
      { sessionId := sid
        state := { st with sessionId := some sid }
        trace := [.init (initBody st.config)] }
    | none =>
      { sessionId := w.fallbackUuid
        state := { st with sessionId := some w.fallbackUuid }
        trace := [.init (initBody st.config)] }

/-- Insertion into a JavaScript object literal: an existing key keeps its
position and gets the new value, a new key is appended. -/
def setKey : List (String × String) → String → String → List (String × String)
  | [], k, v => [(k, v)]
  | (k', v') :: rest, k, v =>
    if k' = k then (k, v) :: rest else (k', v') :: setKey rest k v

/-- The object literal with base fields type, sessionid, name, ownerid
spread with the extra params (later keys override in place), in the key
order URLSearchParams serializes. -/
def buildBody (base : List (String × String)) (params : List (String × String)) :
    List (String × String) :=
  params.foldl (fun acc kv => setKey acc kv.1 kv.2) base

deriving instance DecidableEq for Except

/-- Result of one client operation: the response or thrown error message,
the updated client state and the requests issued. -/
structure ClientResult where
  result : Except String KeyAuthResponse
  state : ClientState
  trace : List Request
deriving DecidableEq, Repr

/-- How the operation fetch of makeRequest turns into a returned response
or a thrown error: a non-ok status throws HTTP status and text, which the
catch (like any network-level exception) wraps with the descriptive
KeyAuth API request failed message; a parsed body is returned verbatim. -/
def fetchResult : FetchOutcome → Except String KeyAuthResponse
  | .exn msg => .error ("KeyAuth API request failed: " ++ msg)
  | .httpError status statusText =>
    .error ("KeyAuth API request failed: " ++ "HTTP " ++ toString status ++ ": " ++ statusText)
  | .ok resp => .ok resp

/-- makeRequest of keyauth.ts: resolves the session id (acquiring it when
absent), posts the merged form body, throws a wrapped error on non-ok
HTTP status or on a network-level exception, and otherwise returns the
parsed response verbatim. -/
def makeRequest (st : ClientState) (w : World) (ty : String)
    (params : List (String × String)) : ClientResult :=
  let sess := getSessionId st w
  let body := buildBody
    [("type", ty), ("sessionid", sess.sessionId),
     ("name", sess.state.config.name), ("ownerid", sess.state.config.ownerid)]
    params
  { result := fetchResult w.fetchOutcome
    state := sess.state
    trace := sess.trace ++ [.op body] }

/-- getUserInfo. -/
def getUserInfo (st : ClientState) (w : World) (username : String) : ClientResult :=
  makeRequest st w "user" [("username", username)]

/-- banUser. -/
def banUser (st : ClientState) (w : World) (username : String) : ClientResult :=
  makeRequest st w "ban" [("username", username)]

/-- unbanUser. -/
def unbanUser (st : ClientState) (w : World) (username : String) : ClientResult :=
  makeRequest st w "unban" [("username", username)]

/-- deleteUser. -/
def deleteUser (st : ClientState) (w : World) (username : String) : ClientResult :=
  makeRequest st w "deleteuser" [("username", username)]

/-- resetHWID. -/
def resetHWID (st : ClientState) (w : World) (username : String) : ClientResult :=
  makeRequest st w "resetuser" [("username", username)]

/-- createLicense: the integer day count is serialized with toString. -/
def createLicense (st : ClientState) (w : World) (license : String) (days : Int) : ClientResult :=
  makeRequest st w "add" [("key", license), ("days", toString days)]

/-- deleteLicense. -/
def deleteLicense (st : ClientState) (w : World) (license : String) : ClientResult :=
  makeRequest st w "delete" [("key", license)]

/-- useLicense. -/
def useLicense (st : ClientState) (w : World) (license : String) (username : String) : ClientResult :=
  makeRequest st w "use" [("key", license), ("username", username)]

/-- extendSubscription: the integer day count is serialized with toString. -/
def extendSubscription (st : ClientState) (w : World) (username : String)
    (subscription : String) (days : Int) : ClientResult :=
  makeRequest st w "extend"
    [("username", username), ("subscription", subscription), ("days", toString days)]

/-- getStats. -/
def getStats (st : ClientState) (w : World) : ClientResult :=
  makeRequest st w "stats" []

/-- setWebhook. -/
def setWebhook (st : ClientState) (w : World) (webhook : String) : ClientResult :=
  makeRequest st w "webhook" [("webhook", webhook)]

/-- addChannel. -/
def addChannel (st : ClientState) (w : World) (channel : String) : ClientResult :=
  makeRequest st w "addchannel" [("channel", channel)]

/-- deleteChannel. -/
def deleteChannel (st : ClientState) (w : World) (channel : String) : ClientResult :=
  makeRequest st w "deletechannel" [("channel", channel)]

/-! ### Dispatcher (index.ts) -/

/-- ADMIN_IDS parsing of index.ts: split on commas, trim, drop empties. -/
def parseAdminIds (raw : String) : List String :=
  ((raw.splitOn ",").map jsTrim).filter (fun s => s ≠ "")

/-- isAdmin of index.ts: membership in the parsed admin id list. -/
def isAdmin (adminIds : List String) (userId : String) : Bool :=
  adminIds.contains userId

/-- A Discord embed as the dispatcher builds it: title, description,
color, and field name/value pairs. -/
structure Embed where
  title : String
  description : String
  color : Nat
  fields : List (String × String)
deriving DecidableEq, Repr

/-- createEmbed of index.ts (color passed explicitly; the source default
is 0x5865F2). -/
def createEmbed (title description : String) (color : Nat) : Embed :=
  { title := title, description := description, color := color, fields := [] }

/-- The common success/failure reply of the simple commands: title and
color by the success flag, description the response message when truthy,
else the templated success string or the per-command failure string. -/
def resultEmbed (successTitle successMsg failMsg : String) (r : KeyAuthResponse) : Embed :=
  createEmbed
    (if r.success then successTitle else "❌ Error")
    (jsOr r.message (if r.success then successMsg else failMsg))
    (if r.success then 0x00FF00 else 0xFF0000)

/-- A date field of the user embed: the locale rendering of the stored
value when truthy, else N/A. -/
def dateFieldVal (fmtDate : String → String) (o : Option String) : String :=
  match o with
  | some s => if s = "" then "N/A" else fmtDate s
  | none => "N/A"

/-- The joined subscriptions text of the user embed. -/
def subscriptionsText (fmtDate : String → String) (subs : List Subscription) : String :=
  String.intercalate "\n\n" (subs.map (fun sub =>
    "**" ++ sub.subscription ++ "**\nKey: " ++ sub.key ++ "\nExpiry: " ++ fmtDate sub.expiry))

/-- The embed the user command builds from a truthy info payload. -/
def userEmbed (fmtDate : String → String) (username : String) (info : Info) : Embed :=
  { title := "👤 User: " ++ username
    description := ""
    color := 0x5865F2
    fields :=
      [("Username", jsOr info.username "N/A"),
       ("IP Address", jsOr info.ip "N/A"),
       ("HWID", jsOr info.hwid "N/A"),
       ("Created", dateFieldVal fmtDate info.createdate),
       ("Last Login", dateFieldVal fmtDate info.lastlogin)]
      ++ (match info.subscriptions with
          | some subs =>
            if subs.length > 0 then
              [("Subscriptions",
                (let subsText := subscriptionsText fmtDate subs
                 if subsText = "" then "None" else subsText))]
            else []
          | none => []) }

/-- A statistics field value: toString of the number when present, else
the literal 0. -/
def statVal (o : Option Int) : String :=
  match o with
  | some n => (let s := toString n; if s = "" then "0" else s)
  | none => "0"

/-- The embed the stats command builds from a truthy info payload. -/
def statsEmbed (info : Info) : Embed :=
  { title := "📊 Application Statistics"
    description := ""
    color := 0x5865F2
    fields :=
      [("Total Users", statVal info.users),
       ("Total Licenses", statVal info.licenses),
       ("Online Users", statVal info.online)] }

/-- A command invocation with its required typed arguments (the platform
guarantees presence of required options before dispatch). -/
inductive Command where
  | user (username : String)
  | ban (username : String)
  | unban (username : String)
  | deleteuser (username : String)
  | resethwid (username : String)
  | createlicense (license : String) (days : Int)
  | deletelicense (license : String)
  | uselicense (license : String) (username : String)
  | extendsub (username : String) (subscription : String) (days : Int)
  | stats
  | unknown
deriving DecidableEq, Repr

/-- Result of dispatching one interaction: the replies sent (the source
sends exactly one per invocation), the client state after it, and the
requests issued. -/
structure DispatchResult where
  replies : List Embed
  state : ClientState
  trace : List Request
deriving DecidableEq, Repr

/-- The body of the try block of the interactionCreate handler: validates
arguments, invokes the one matching client operation and translates its
response; a thrown client error is propagated to the catch.  The reply
(or propagated error) is paired with the client state and request trace
of the one operation invoked, or with the unchanged state and an empty
trace when validation stops the invocation. -/
def dispatchBody (cmd : Command) (st : ClientState) (w : World) :
    Except String (List Embed) × ClientState × List Request :=
  match cmd with
  | .user username =>
    let username := jsTrim username
    if username = "" then
      (.ok [createEmbed "❌ Error" "Username cannot be empty" 0xFF0000], st, [])
    else
      let c := getUserInfo st w username
      ((match c.result with
        | .error e => .error e
        | .ok result =>
          if result.success && result.info.isSome then
            .ok [userEmbed w.fmtDate username (result.info.getD {})]
          else
            .ok [createEmbed "❌ Error" (jsOr result.message "User not found") 0xFF0000]),
       c.state, c.trace)
  | .ban username =>
    let username := jsTrim username
    if username = "" then
      (.ok [createEmbed "❌ Error" "Username cannot be empty" 0xFF0000], st, [])
    else
      let c := banUser st w username
      ((match c.result with
        | .error e => .error e
        | .ok result =>
          .ok [resultEmbed "✅ User Banned"
            ("User " ++ username ++ " has been banned.") "Failed to ban user" result]),
       c.state, c.trace)
  | .unban username =>
    let username := jsTrim username
    if username = "" then
      (.ok [createEmbed "❌ Error" "Username cannot be empty" 0xFF0000], st, [])
    else
      let c := unbanUser st w username
      ((match c.result with
        | .error e => .error e
        | .ok result =>
          .ok [resultEmbed "✅ User Unbanned"
            ("User " ++ username ++ " has been unbanned.") "Failed to unban user" result]),
       c.state, c.trace)
  | .deleteuser username =>
    let username := jsTrim username
    if username = "" then
      (.ok [createEmbed "❌ Error" "Username cannot be empty" 0xFF0000], st, [])
    else
      let c := deleteUser st w username
      ((match c.result with
        | .error e => .error e
        | .ok result =>
          .ok [resultEmbed "✅ User Deleted"
            ("User " ++ username ++ " has been deleted.") "Failed to delete user" result]),
       c.state, c.trace)
  | .resethwid username =>
    let username := jsTrim username
    if username = "" then
      (.ok [createEmbed "❌ Error" "Username cannot be empty" 0xFF0000], st, [])
    else
      let c := resetHWID st w username
      ((match c.result with
        | .error e => .error e
        | .ok result =>
          .ok [resultEmbed "✅ HWID Reset"
            ("HWID for " ++ username ++ " has been reset.") "Failed to reset HWID" result]),
       c.state, c.trace)
  | .createlicense license days =>
    let c := createLicense st w license days
    ((match c.result with
      | .error e => .error e
      | .ok result =>
        .ok [resultEmbed "✅ License Created"
          ("License " ++ license ++ " created for " ++ toString days ++ " days.")
          "Failed to create license" result]),
     c.state, c.trace)
  | .deletelicense license =>
    let c := deleteLicense st w license
    ((match c.result with
      | .error e => .error e
      | .ok result =>
        .ok [resultEmbed "✅ License Deleted"
          ("License " ++ license ++ " has been deleted.")
          "Failed to delete license" result]),
     c.state, c.trace)
  | .uselicense license username =>
    let license := jsTrim license
    let username := jsTrim username
    if license = "" || username = "" then
      (.ok [createEmbed "❌ Error" "License and username cannot be empty" 0xFF0000], st, [])
    else
      let c := useLicense st w license username
      ((match c.result with
        | .error e => .error e
        | .ok result =>
          .ok [resultEmbed "✅ License Applied"
            ("License " ++ license ++ " applied to " ++ username ++ ".")
            "Failed to apply license" result]),
       c.state, c.trace)
  | .extendsub username subscription days =>
    let username := jsTrim username
    let subscription := jsTrim subscription
    if username = "" || subscription = "" then
      (.ok [createEmbed "❌ Error" "Username and subscription cannot be empty" 0xFF0000], st, [])
    else
      let c := extendSubscription st w username subscription days
      ((match c.result with
        | .error e => .error e
        | .ok result =>
          .ok [resultEmbed "✅ Subscription Extended"
            ("Subscription " ++ subscription ++ " for " ++ username ++ " extended by "
              ++ toString days ++ " days.")
            "Failed to extend subscription" result]),
       c.state, c.trace)
  | .stats =>
    let c := getStats st w
    ((match c.result with
      | .error e => .error e
      | .ok result =>
        if result.success && result.info.isSome then
          .ok [statsEmbed (result.info.getD {})]
        else
          .ok [createEmbed "❌ Error" (jsOr result.message "Failed to fetch statistics") 0xFF0000]),
     c.state, c.trace)
  | .unknown =>
    (.ok [createEmbed "❌ Unknown Command" "This command is not implemented." 0xFF0000], st, [])

/-- The interactionCreate handler: the admin gate followed by the try
block, with the catch converting a thrown error into the single generic
error notification. -/
def dispatch (adminIds : List String) (callerId : String) (cmd : Command)
    (st : ClientState) (w : World) : DispatchResult :=
  if isAdmin adminIds callerId = false then
    { replies := [createEmbed "❌ Access Denied" "You do not have permission to use this bot." 0xFF0000]
      state := st, trace := [] }
  else
    let b := dispatchBody cmd st w
    { replies :=
        match b.1 with
        | .ok replies => replies
        | .error msg => [createEmbed "❌ Error" ("An error occurred: " ++ msg) 0xFF0000]
      state := b.2.1
      trace := b.2.2 }

/-- One inbound interaction: its caller, command and environment. -/
structure Invocation where
  callerId : String
  cmd : Command
  world : World

/-- Sequential processing of a list of interactions, threading the client
state and accumulating replies and requests. -/
def runDispatch (adminIds : List String) (st : ClientState) :
    List Invocation → List Embed × ClientState × List Request
  | [] => ([], st, [])
  | inv :: rest =>
    let d := dispatch adminIds inv.callerId inv.cmd st inv.world
    let r := runDispatch adminIds d.state rest
    (d.replies ++ r.1, r.2.1, d.trace ++ r.2.2)

/-- Whether a request is the init handshake. -/
def isInitReq : Request → Bool
  | .init _ => true
  | .op _ => false

/-- Number of init requests in a trace. -/
def initCount (tr : List Request) : Nat :=
  (tr.filter isInitReq).length

/-- Whether a request is an operation request whose form body carries the
given session id. -/
def opWithSession (s : String) : Request → Bool
  | .init _ => false
  | .op body => decide ((body.lookup "sessionid") = some s)

/-- Substring test on character lists, by scanning suffixes. -/
def containsSub : List Char → List Char → Bool
  | [], sub => sub.isEmpty
  | c :: rest, sub => sub.isPrefixOf (c :: rest) || containsSub rest sub

/-- Whether the second string occurs as a contiguous substring of the
first. -/
def strContainsSub (s sub : String) : Bool :=
  containsSub s.toList sub.toList

/-! ### Concrete fixtures for witnesses and counterexamples -/

/-- A sample client configuration. -/
def stubConfig : KeyAuthConfig :=
  { name := "app", ownerid := "own", version := "2.0", url := "https://keyauth.win/api/1.3/" }

/-- Client state with no cached session. -/
def stubStateNone : ClientState := { config := stubConfig, sessionId := none }

/-- Client state with a cached session id S. -/
def stubStateS : ClientState := { config := stubConfig, sessionId := some "S" }

/-- World whose init handshake succeeds with SID, whose local fallback
would be FB, and whose operation fetch returns a bare success. -/
def stubWorldOk : World :=
  { initOutcome := .body true (some "SID"), fallbackUuid := "FB"
    fetchOutcome := .ok { success := true }, fmtDate := fun s => s }

/-- World whose init handshake fails with a non-ok HTTP status. -/
def stubWorldInitFail : World :=
  { initOutcome := .httpError, fallbackUuid := "FB"
    fetchOutcome := .ok { success := true }, fmtDate := fun s => s }

/-- World whose operation fetch returns HTTP 500. -/
def stubWorldHttp500 : World :=
  { initOutcome := .body true (some "SID"), fallbackUuid := "FB"
    fetchOutcome := .httpError 500 "Internal Server Error", fmtDate := fun s => s }

/-- A date renderer whose output is visibly not the stored value, standing
in for the locale rendering toLocaleDateString performs. -/
def fmtStub : String → String := fun _ => "FORMATTED-DATE"

/-- A user info payload as the upstream would echo it. -/
def stubUserInfo : Info :=
  { username := some "alice", ip := some "1.2.3.4", hwid := some "HW-1"
    createdate := some "2021-01-02", lastlogin := some "2021-03-04" }

/-- World whose operation fetch returns the user info payload, rendering
dates through the stand-in formatter. -/
def stubWorldUser : World :=
  { initOutcome := .body true (some "SID"), fallbackUuid := "FB"
    fetchOutcome := .ok { success := true, info := some stubUserInfo }, fmtDate := fmtStub }

/-- A statistics payload. -/
def stubStatsInfo : Info := { users := some 42, licenses := some 10, online := some 3 }

/-- World whose operation fetch returns success with the payload absent. -/
def stubWorldNoInfo : World :=
  { initOutcome := .body true (some "SID"), fallbackUuid := "FB"
    fetchOutcome := .ok { success := true }, fmtDate := fun s => s }

/-- A two-invocation session: a stats lookup followed by a ban. -/
def stubInvs : List Invocation :=
  [{ callerId := "a", cmd := .stats, world := stubWorldOk },
   { callerId := "a", cmd := .ban "bob", world := stubWorldOk }]

/-- Which commands pass argument validation and reach the client (a
summary of the dispatcher branch structure, established by the proofs
that use it). -/
def reachesClient : Command → Bool
  | .user u => jsTrim u ≠ ""
  | .ban u => jsTrim u ≠ ""
  | .unban u => jsTrim u ≠ ""
  | .deleteuser u => jsTrim u ≠ ""
  | .resethwid u => jsTrim u ≠ ""
  | .createlicense _ _ => true
  | .deletelicense _ => true
  | .uselicense l u => jsTrim l ≠ "" && jsTrim u ≠ ""
  | .extendsub u s _ => jsTrim u ≠ "" && jsTrim s ≠ ""
  | .stats => true
  | .unknown => false

/-! ### Helper lemmas -/

theorem makeRequest_result (st : ClientState) (w : World) (ty : String)
    (params : List (String × String)) :
    (makeRequest st w ty params).result = fetchResult w.fetchOutcome := rfl

theorem makeRequest_state (st : ClientState) (w : World) (ty : String)
    (params : List (String × String)) :
    (makeRequest st w ty params).state = (getSessionId st w).state := rfl

theorem makeRequest_trace (st : ClientState) (w : World) (ty : String)
    (params : List (String × String)) :
    (makeRequest st w ty params).trace =
      (getSessionId st w).trace ++
        [.op (buildBody
          [("type", ty), ("sessionid", (getSessionId st w).sessionId),
           ("name", (getSessionId st w).state.config.name),
           ("ownerid", (getSessionId st w).state.config.ownerid)] params)] := rfl

theorem getSessionId_some (st : ClientState) (w : World) (s : String)
    (h : st.sessionId = some s) :
    getSessionId st w = { sessionId := s, state := st, trace := [] } := by
  simp [getSessionId, h]

theorem getSessionId_none (st : ClientState) (w : World) (h : st.sessionId = none) :
    getSessionId st w =
      { sessionId := (initAttempt w).getD w.fallbackUuid
        state := { st with sessionId := some ((initAttempt w).getD w.fallbackUuid) }
        trace := [.init (initBody st.config)] } := by
  simp only [getSessionId, h]
  cases initAttempt w <;> rfl

theorem getSessionId_isSome (st : ClientState) (w : World) :
    (getSessionId st w).state.sessionId.isSome = true := by
  cases h : st.sessionId with
  | some s => rw [getSessionId_some st w s h]; simp [h]
  | none => rw [getSessionId_none st w h]; rfl

theorem lookup_setKey_ne (l : List (String × String)) (k v k' : String) (h : k' ≠ k) :
    List.lookup k' (setKey l k v) = List.lookup k' l := by
  induction l with
  | nil => simp [setKey, List.lookup, beq_false_of_ne h]
  | cons p rest ih =>
    obtain ⟨k₀, v₀⟩ := p
    by_cases hk : k₀ = k
    · subst hk
      simp [setKey, List.lookup, beq_false_of_ne h]
    · simp only [setKey, if_neg hk, List.lookup]
      by_cases hk' : k' = k₀
      · subst hk'; simp
      · simp [beq_false_of_ne hk', ih]

theorem lookup_buildBody (base params : List (String × String)) (k : String)
    (h : ∀ p ∈ params, p.1 ≠ k) :
    List.lookup k (buildBody base params) = List.lookup k base := by
  induction params generalizing base with
  | nil => rfl
  | cons p ps ih =>
    have hbase : buildBody base (p :: ps) = buildBody (setKey base p.1 p.2) ps := rfl
    rw [hbase, ih _ (fun q hq => h q (List.mem_cons_of_mem p hq)),
      lookup_setKey_ne _ _ _ _ (fun he => h p (List.mem_cons_self p ps) he.symm)]

theorem initCount_append (a b : List Request) :
    initCount (a ++ b) = initCount a + initCount b := by
  simp [initCount, List.filter_append]

/-- Every dispatched invocation either stops before the client (unchanged
state, no requests) or performs exactly one client operation whose extra
parameters never name the sessionid key. -/
theorem dispatchBody_shape (cmd : Command) (st : ClientState) (w : World) :
    ((dispatchBody cmd st w).2 = (st, ([] : List Request))) ∨
    (∃ ty params, (∀ p ∈ params, p.1 ≠ "sessionid") ∧
      (dispatchBody cmd st w).2 =
        ((makeRequest st w ty params).state, (makeRequest st w ty params).trace)) := by
  have hone : ∀ (v : String), ∀ p ∈ [("username", v)], (p.1 : String) ≠ "sessionid" := by
    intro v p hp
    simp only [List.mem_singleton] at hp
    rw [hp]
    exact (by decide : ("username" : String) ≠ "sessionid")
  cases cmd with
  | user u =>
    by_cases h : jsTrim u = ""
    · exact .inl (by simp [dispatchBody, h])
    · exact .inr ⟨"user", [("username", jsTrim u)], hone _, by simp [dispatchBody, h, getUserInfo]⟩
  | ban u =>
    by_cases h : jsTrim u = ""
    · exact .inl (by simp [dispatchBody, h])
    · exact .inr ⟨"ban", [("username", jsTrim u)], hone _, by simp [dispatchBody, h, banUser]⟩
  | unban u =>
    by_cases h : jsTrim u = ""
    · exact .inl (by simp [dispatchBody, h])
    · exact .inr ⟨"unban", [("username", jsTrim u)], hone _, by simp [dispatchBody, h, unbanUser]⟩
  | deleteuser u =>
    by_cases h : jsTrim u = ""
    · exact .inl (by simp [dispatchBody, h])
    · exact .inr ⟨"deleteuser", [("username", jsTrim u)], hone _,
        by simp [dispatchBody, h, deleteUser]⟩
  | resethwid u =>
    by_cases h : jsTrim u = ""
    · exact .inl (by simp [dispatchBody, h])
    · exact .inr ⟨"resetuser", [("username", jsTrim u)], hone _,
        by simp [dispatchBody, h, resetHWID]⟩
  | createlicense l d =>
    refine .inr ⟨"add", [("key", l), ("days", toString d)], ?_, by simp [dispatchBody, createLicense]⟩
    intro p hp
    simp only [List.mem_cons, List.mem_singleton, List.not_mem_nil, or_false] at hp
    rcases hp with hp | hp
    · rw [hp]; exact (by decide : ("key" : String) ≠ "sessionid")
    · rw [hp]; exact (by decide : ("days" : String) ≠ "sessionid")
  | deletelicense l =>
    refine .inr ⟨"delete", [("key", l)], ?_, by simp [dispatchBody, deleteLicense]⟩
    intro p hp
    simp only [List.mem_singleton] at hp
    rw [hp]
    exact (by decide : ("key" : String) ≠ "sessionid")
  | uselicense l u =>
    by_cases h : jsTrim l = "" ∨ jsTrim u = ""
    · refine .inl ?_
      rcases h with h | h <;> simp [dispatchBody, h]
    · push_neg at h
      refine .inr ⟨"use", [("key", jsTrim l), ("username", jsTrim u)], ?_,
        by simp [dispatchBody, h.1, h.2, useLicense]⟩
      intro p hp
      simp only [List.mem_cons, List.mem_singleton, List.not_mem_nil, or_false] at hp
      rcases hp with hp | hp
      · rw [hp]; exact (by decide : ("key" : String) ≠ "sessionid")
      · rw [hp]; exact (by decide : ("username" : String) ≠ "sessionid")
  | extendsub u sub d =>
    by_cases h : jsTrim u = "" ∨ jsTrim sub = ""
    · refine .inl ?_
      rcases h with h | h <;> simp [dispatchBody, h]
    · push_neg at h
      refine .inr ⟨"extend",
        [("username", jsTrim u), ("subscription", jsTrim sub), ("days", toString d)], ?_,
        by simp [dispatchBody, h.1, h.2, extendSubscription]⟩
      intro p hp
      simp only [List.mem_cons, List.mem_singleton, List.not_mem_nil, or_false] at hp
      rcases hp with hp | hp | hp
      · rw [hp]; exact (by decide : ("username" : String) ≠ "sessionid")
      · rw [hp]; exact (by decide : ("subscription" : String) ≠ "sessionid")
      · rw [hp]; exact (by decide : ("days" : String) ≠ "sessionid")
  | stats =>
    exact .inr ⟨"stats", [], by simp, by simp [dispatchBody, getStats]⟩
  | unknown =>
    exact .inl (by simp [dispatchBody])

/-- dispatch-level version of the shape lemma: the admin gate adds one
more way to stop before the client. -/
theorem dispatch_shape (ids : List String) (caller : String) (cmd : Command)
    (st : ClientState) (w : World) :
    ((dispatch ids caller cmd st w).state = st ∧ (dispatch ids caller cmd st w).trace = []) ∨
    (∃ ty params, (∀ p ∈ params, p.1 ≠ "sessionid") ∧
      (dispatch ids caller cmd st w).state = (makeRequest st w ty params).state ∧
      (dispatch ids caller cmd st w).trace = (makeRequest st w ty params).trace) := by
  by_cases h : isAdmin ids caller = false
  · exact .inl (by simp [dispatch, h])
  · rcases dispatchBody_shape cmd st w with h2 | ⟨ty, params, hp, h2⟩
    · refine .inl ?_
      have hs : (dispatch ids caller cmd st w).state = (dispatchBody cmd st w).2.1 := by
        simp [dispatch, h]
      have ht : (dispatch ids caller cmd st w).trace = (dispatchBody cmd st w).2.2 := by
        simp [dispatch, h]
      rw [hs, ht, h2]
      exact ⟨rfl, rfl⟩
    · refine .inr ⟨ty, params, hp, ?_, ?_⟩ <;> simp [dispatch, h, h2]

/-- With a cached session id, a dispatched invocation keeps it, issues no
init request, and every request it issues is an operation request whose
body carries that id. -/
theorem dispatch_session_cached (ids : List String) (caller : String) (cmd : Command)
    (st : ClientState) (w : World) (s : String) (h : st.sessionId = some s) :
    (dispatch ids caller cmd st w).state.sessionId = some s ∧
    initCount (dispatch ids caller cmd st w).trace = 0 ∧
    ∀ r ∈ (dispatch ids caller cmd st w).trace, opWithSession s r = true := by
  rcases dispatch_shape ids caller cmd st w with ⟨h1, h2⟩ | ⟨ty, params, hp, h1, h2⟩
  · simp [h1, h2, h, initCount]
  · rw [h1, h2, makeRequest_state, makeRequest_trace, getSessionId_some st w s h]
    refine ⟨h, by simp [initCount, isInitReq], ?_⟩
    intro r hr
    simp only [List.nil_append, List.mem_singleton] at hr
    subst hr
    simp only [opWithSession, decide_eq_true_eq]
    rw [lookup_buildBody _ _ _ hp]
    rfl

/-- A dispatched invocation either leaves everything untouched or ends
with an active session, having issued at most one init request. -/
theorem dispatch_session_step (ids : List String) (caller : String) (cmd : Command)
    (st : ClientState) (w : World) :
    ((dispatch ids caller cmd st w).state = st ∧ (dispatch ids caller cmd st w).trace = []) ∨
    ((dispatch ids caller cmd st w).state.sessionId.isSome = true ∧
      initCount (dispatch ids caller cmd st w).trace ≤ 1) := by
  rcases dispatch_shape ids caller cmd st w with ⟨h1, h2⟩ | ⟨ty, params, hp, h1, h2⟩
  · exact .inl ⟨h1, h2⟩
  · refine .inr ⟨by rw [h1, makeRequest_state]; exact getSessionId_isSome st w, ?_⟩
    rw [h2, makeRequest_trace, initCount_append]
    have hop : initCount [Request.op (buildBody
        [("type", ty), ("sessionid", (getSessionId st w).sessionId),
         ("name", (getSessionId st w).state.config.name),
         ("ownerid", (getSessionId st w).state.config.ownerid)] params)] = 0 := by
      simp [initCount, isInitReq]
    rw [hop]
    cases hs : st.sessionId with
    | some s => rw [getSessionId_some st w s hs]; simp [initCount]
    | none => rw [getSessionId_none st w hs]; simp [initCount, isInitReq]

/-- Cached-session invariant over a whole interaction sequence. -/
theorem runDispatch_cached (ids : List String) (st : ClientState)
    (invs : List Invocation) (s : String) (h : st.sessionId = some s) :
    (runDispatch ids st invs).2.1.sessionId = some s ∧
    initCount (runDispatch ids st invs).2.2 = 0 ∧
    ∀ r ∈ (runDispatch ids st invs).2.2, opWithSession s r = true := by
  induction invs generalizing st with
  | nil => simp [runDispatch, h, initCount]
  | cons inv rest ih =>
    obtain ⟨h1, h2, h3⟩ := dispatch_session_cached ids inv.callerId inv.cmd st inv.world s h
    obtain ⟨g1, g2, g3⟩ := ih _ h1
    simp only [runDispatch]
    refine ⟨g1, ?_, ?_⟩
    · rw [initCount_append, h2, g2]
    · intro r hr
      rcases List.mem_append.1 hr with hr | hr
      exacts [h3 r hr, g3 r hr]

/-- Across any interaction sequence, the init handshake is issued at most
once, and an issued request means the session is active afterwards. -/
theorem runDispatch_initCount (ids : List String) (st : ClientState)
    (invs : List Invocation) :
    initCount (runDispatch ids st invs).2.2 ≤ 1 ∧
    ((runDispatch ids st invs).2.2 ≠ [] →
      (runDispatch ids st invs).2.1.sessionId.isSome = true) := by
  induction invs generalizing st with
  | nil => simp [runDispatch, initCount]
  | cons inv rest ih =>
    simp only [runDispatch]
    rcases dispatch_session_step ids inv.callerId inv.cmd st inv.world with ⟨h1, h2⟩ | ⟨h1, h2⟩
    · rw [h1, h2]
      obtain ⟨g1, g2⟩ := ih st
      simp only [List.nil_append]
      exact ⟨g1, g2⟩
    · obtain ⟨s, hs⟩ := Option.isSome_iff_exists.1 h1
      obtain ⟨g1, g2, g3⟩ := runDispatch_cached ids _ rest s hs
      refine ⟨?_, fun _ => by rw [g1]; rfl⟩
      rw [initCount_append, g2]
      omega

/-! ### Claim theorems -/

/-- C1: For every command invocation, a caller whose id is not in the
admin allow-list gets exactly the access-denied notification, the client
state is untouched and zero upstream requests are issued, regardless of
the command and its arguments. -/
theorem admin_gate_denies (adminIds : List String) (callerId : String) (cmd : Command)
    (st : ClientState) (w : World) (h : isAdmin adminIds callerId = false) :
    dispatch adminIds callerId cmd st w =
      { replies := [createEmbed "❌ Access Denied" "You do not have permission to use this bot." 0xFF0000]
        state := st, trace := [] } := by
  simp [dispatch, h]

/-- Witness for C1 at a concrete non-admin caller and command. -/
theorem admin_gate_denies_witness :
    dispatch ["123"] "456" (.ban "bob") stubStateNone stubWorldOk =
      { replies := [createEmbed "❌ Access Denied" "You do not have permission to use this bot." 0xFF0000]
        state := stubStateNone, trace := [] } :=
  admin_gate_denies ["123"] "456" (.ban "bob") stubStateNone stubWorldOk (by decide)

/-- C2 counterexample: the claim fails on createlicense and deletelicense.
An all-whitespace license argument from an admin caller is not rejected:
the dispatcher issues upstream requests (init plus the operation) and
replies with the ordinary success notification, not a validation error. -/
theorem license_whitespace_counterexample :
    (dispatch ["a"] "a" (.deletelicense " ") stubStateNone stubWorldOk).trace ≠ [] ∧
    (dispatch ["a"] "a" (.deletelicense " ") stubStateNone stubWorldOk).replies =
      [createEmbed "✅ License Deleted" "License   has been deleted." 0x00FF00] ∧
    (dispatch ["a"] "a" (.createlicense " " 30) stubStateNone stubWorldOk).trace ≠ [] := by
  decide

/-- C2 amended: for the commands user, ban, unban, deleteuser, resethwid,
uselicense and extendsub, a required string argument that is empty after
trimming produces the validation-error notification, leaves the state
untouched and issues zero upstream requests; createlicense and
deletelicense perform no such validation and always invoke the client,
issuing at least one upstream request even for a whitespace argument. -/
theorem argument_validation_amended (ids : List String) (caller : String)
    (st : ClientState) (w : World) (hadmin : isAdmin ids caller = true) :
    (∀ u, jsTrim u = "" → dispatch ids caller (.user u) st w =
      { replies := [createEmbed "❌ Error" "Username cannot be empty" 0xFF0000]
        state := st, trace := [] }) ∧
    (∀ u, jsTrim u = "" → dispatch ids caller (.ban u) st w =
      { replies := [createEmbed "❌ Error" "Username cannot be empty" 0xFF0000]
        state := st, trace := [] }) ∧
    (∀ u, jsTrim u = "" → dispatch ids caller (.unban u) st w =
      { replies := [createEmbed "❌ Error" "Username cannot be empty" 0xFF0000]
        state := st, trace := [] }) ∧
    (∀ u, jsTrim u = "" → dispatch ids caller (.deleteuser u) st w =
      { replies := [createEmbed "❌ Error" "Username cannot be empty" 0xFF0000]
        state := st, trace := [] }) ∧
    (∀ u, jsTrim u = "" → dispatch ids caller (.resethwid u) st w =
      { replies := [createEmbed "❌ Error" "Username cannot be empty" 0xFF0000]
        state := st, trace := [] }) ∧
    (∀ l u, jsTrim l = "" ∨ jsTrim u = "" → dispatch ids caller (.uselicense l u) st w =
      { replies := [createEmbed "❌ Error" "License and username cannot be empty" 0xFF0000]
        state := st, trace := [] }) ∧
    (∀ u sub d, jsTrim u = "" ∨ jsTrim sub = "" → dispatch ids caller (.extendsub u sub d) st w =
      { replies := [createEmbed "❌ Error" "Username and subscription cannot be empty" 0xFF0000]
        state := st, trace := [] }) ∧
    (∀ l d, (dispatch ids caller (.createlicense l d) st w).trace ≠ []) ∧
    (∀ l, (dispatch ids caller (.deletelicense l) st w).trace ≠ []) := by
  refine ⟨?_, ?_, ?_, ?_, ?_, ?_, ?_, ?_, ?_⟩
  · intro u h; simp [dispatch, dispatchBody, hadmin, h]
  · intro u h; simp [dispatch, dispatchBody, hadmin, h]
  · intro u h; simp [dispatch, dispatchBody, hadmin, h]
  · intro u h; simp [dispatch, dispatchBody, hadmin, h]
  · intro u h; simp [dispatch, dispatchBody, hadmin, h]
  · intro l u h; rcases h with h | h <;> simp [dispatch, dispatchBody, hadmin, h]
  · intro u sub d h; rcases h with h | h <;> simp [dispatch, dispatchBody, hadmin, h]
  · intro l d
    simp [dispatch, dispatchBody, hadmin, createLicense, makeRequest]
  · intro l
    simp [dispatch, dispatchBody, hadmin, deleteLicense, makeRequest]

/-- Witness for the amended C2 at concrete inputs: a whitespace username
to user is rejected with no requests, and a whitespace license to
deletelicense still issues requests. -/
theorem argument_validation_amended_witness :
    dispatch ["a"] "a" (.user " ") stubStateNone stubWorldOk =
      { replies := [createEmbed "❌ Error" "Username cannot be empty" 0xFF0000]
        state := stubStateNone, trace := [] } ∧
    (dispatch ["a"] "a" (.deletelicense " ") stubStateNone stubWorldOk).trace ≠ [] :=
  ⟨(argument_validation_amended ["a"] "a" stubStateNone stubWorldOk (by decide)).1 " " (by decide),
   (argument_validation_amended ["a"] "a" stubStateNone stubWorldOk (by decide)).2.2.2.2.2.2.2.2 " "⟩

/-- C3: Once a session id is cached (SessionActive), every dispatched
sequence of invocations keeps that same id, issues zero init requests,
and every request it issues is an operation request carrying that id in
its body; from any state, the init handshake is issued at most once
across the whole sequence; and as soon as any request has been issued the
session is active and never returns to Uninitialized. -/
theorem session_lifecycle (ids : List String) (st : ClientState)
    (invs : List Invocation) (s : String) :
    (st.sessionId = some s →
      (runDispatch ids st invs).2.1.sessionId = some s ∧
      initCount (runDispatch ids st invs).2.2 = 0 ∧
      ∀ r ∈ (runDispatch ids st invs).2.2, opWithSession s r = true) ∧
    initCount (runDispatch ids st invs).2.2 ≤ 1 ∧
    ((runDispatch ids st invs).2.2 ≠ [] →
      (runDispatch ids st invs).2.1.sessionId.isSome = true) :=
  ⟨fun h => runDispatch_cached ids st invs s h,
   (runDispatch_initCount ids st invs).1,
   (runDispatch_initCount ids st invs).2⟩

/-- Witness for C3: a concrete two-invocation session starting from a
cached session id S keeps S, issues no init request, and both issued
requests carry S. -/
theorem session_lifecycle_witness :
    (runDispatch ["a"] stubStateS stubInvs).2.1.sessionId = some "S" ∧
    initCount (runDispatch ["a"] stubStateS stubInvs).2.2 = 0 ∧
    (∀ r ∈ (runDispatch ["a"] stubStateS stubInvs).2.2, opWithSession "S" r = true) ∧
    initCount (runDispatch ["a"] stubStateS stubInvs).2.2 ≤ 1 :=
  ⟨((session_lifecycle ["a"] stubStateS stubInvs "S").1 rfl).1,
   ((session_lifecycle ["a"] stubStateS stubInvs "S").1 rfl).2.1,
   ((session_lifecycle ["a"] stubStateS stubInvs "S").1 rfl).2.2,
   (session_lifecycle ["a"] stubStateS stubInvs "S").2.1⟩

/-- C4: When the cached session is absent and the init handshake fails in
any of its failure shapes (network error, non-ok HTTP status, body with a
falsy success flag, or a missing or empty session id — the malformed-body
case is the thrown-parse branch of netError), session acquisition does
not raise: it returns the locally generated fallback UUID, caches it
exactly like a server-issued id, and the originating operation proceeds
to completion, issuing its request with the fallback id in the body and
returning whatever the operation fetch yields. -/
theorem init_fallback (st : ClientState) (w : World) (ty : String)
    (params : List (String × String)) (h : st.sessionId = none)
    (hfail : initAttempt w = none) :
    (w.initOutcome = .netError ∨ w.initOutcome = .httpError ∨
      (∃ sid, w.initOutcome = .body false sid) ∨
      w.initOutcome = .body true none ∨ w.initOutcome = .body true (some "")) ∧
    getSessionId st w =
      { sessionId := w.fallbackUuid
        state := { st with sessionId := some w.fallbackUuid }
        trace := [.init (initBody st.config)] } ∧
    (makeRequest st w ty params).state.sessionId = some w.fallbackUuid ∧
    (makeRequest st w ty params).trace =
      [.init (initBody st.config),
       .op (buildBody
         [("type", ty), ("sessionid", w.fallbackUuid),
          ("name", st.config.name), ("ownerid", st.config.ownerid)] params)] ∧
    (∀ r, w.fetchOutcome = .ok r → (makeRequest st w ty params).result = .ok r) := by
  have hsess : getSessionId st w =
      { sessionId := w.fallbackUuid
        state := { st with sessionId := some w.fallbackUuid }
        trace := [.init (initBody st.config)] } := by
    rw [getSessionId_none st w h, hfail]
    rfl
  refine ⟨?_, hsess, ?_, ?_, ?_⟩
  · cases ho : w.initOutcome with
    | netError => exact .inl rfl
    | httpError => exact .inr (.inl rfl)
    | body success sessionid =>
      cases success with
      | false => exact .inr (.inr (.inl ⟨sessionid, rfl⟩))
      | true =>
        cases sessionid with
        | none => exact .inr (.inr (.inr (.inl rfl)))
        | some sid =>
          refine .inr (.inr (.inr (.inr ?_)))
          by_cases hsid : sid = ""
          · rw [hsid]
          · exfalso
            rw [initAttempt, ho] at hfail
            simp [hsid] at hfail
  · rw [makeRequest_state, hsess]
  · rw [makeRequest_trace, hsess]
    rfl
  · intro r hr
    rw [makeRequest_result, hr]
    rfl

/-- Witness for C4: a concrete non-ok init handshake falls back to FB,
caches it, and the deletelicense operation completes with the stub
response. -/
theorem init_fallback_witness :
    (stubWorldInitFail.initOutcome = .netError ∨ stubWorldInitFail.initOutcome = .httpError ∨
      (∃ sid, stubWorldInitFail.initOutcome = .body false sid) ∨
      stubWorldInitFail.initOutcome = .body true none ∨
      stubWorldInitFail.initOutcome = .body true (some "")) ∧
    getSessionId stubStateNone stubWorldInitFail =
      { sessionId := "FB"
        state := { stubStateNone with sessionId := some "FB" }
        trace := [.init (initBody stubStateNone.config)] } ∧
    (makeRequest stubStateNone stubWorldInitFail "delete" [("key", "K")]).state.sessionId = some "FB" ∧
    (makeRequest stubStateNone stubWorldInitFail "delete" [("key", "K")]).trace =
      [.init (initBody stubStateNone.config),
       .op (buildBody
         [("type", "delete"), ("sessionid", "FB"),
          ("name", stubStateNone.config.name), ("ownerid", stubStateNone.config.ownerid)]
         [("key", "K")])] ∧
    (∀ r, stubWorldInitFail.fetchOutcome = .ok r →
      (makeRequest stubStateNone stubWorldInitFail "delete" [("key", "K")]).result = .ok r) := by
  have h := init_fallback stubStateNone stubWorldInitFail "delete" [("key", "K")] rfl rfl
  exact ⟨h.1, h.2.1, h.2.2.1, h.2.2.2.1, h.2.2.2.2⟩

/-- C5: For every remote operation, a non-2xx HTTP status or a
network-level exception makes makeRequest raise an error whose message
wraps the failure descriptively (carrying the status code and text in the
non-2xx case); the dispatcher catches it at its per-invocation boundary
and sends exactly one notification, which for every invocation that
reaches the client is exactly the generic error embed wrapping that
message — the error never propagates past the handler. -/
theorem transport_error_boundary (ids : List String) (caller : String) (cmd : Command)
    (st : ClientState) (w : World) (msg : String)
    (hmsg : fetchResult w.fetchOutcome = .error msg)
    (hadmin : isAdmin ids caller = true) :
    (∀ ty params, (makeRequest st w ty params).result = .error msg) ∧
    (∀ status text, w.fetchOutcome = .httpError status text →
      msg = "KeyAuth API request failed: " ++ "HTTP " ++ toString status ++ ": " ++ text) ∧
    (∀ m, w.fetchOutcome = .exn m → msg = "KeyAuth API request failed: " ++ m) ∧
    (dispatch ids caller cmd st w).replies.length = 1 ∧
    (reachesClient cmd = true →
      (dispatch ids caller cmd st w).replies =
        [createEmbed "❌ Error" ("An error occurred: " ++ msg) 0xFF0000]) := by
  refine ⟨?_, ?_, ?_, ?_, ?_⟩
  · intro ty params; rw [makeRequest_result, hmsg]
  · intro status text hw
    rw [hw] at hmsg
    simpa [fetchResult] using hmsg.symm
  · intro m hw
    rw [hw] at hmsg
    simpa [fetchResult] using hmsg.symm
  · cases cmd with
    | user u =>
      by_cases h : jsTrim u = "" <;>
        simp [dispatch, dispatchBody, hadmin, h, getUserInfo, makeRequest_result, hmsg]
    | ban u =>
      by_cases h : jsTrim u = "" <;>
        simp [dispatch, dispatchBody, hadmin, h, banUser, makeRequest_result, hmsg]
    | unban u =>
      by_cases h : jsTrim u = "" <;>
        simp [dispatch, dispatchBody, hadmin, h, unbanUser, makeRequest_result, hmsg]
    | deleteuser u =>
      by_cases h : jsTrim u = "" <;>
        simp [dispatch, dispatchBody, hadmin, h, deleteUser, makeRequest_result, hmsg]
    | resethwid u =>
      by_cases h : jsTrim u = "" <;>
        simp [dispatch, dispatchBody, hadmin, h, resetHWID, makeRequest_result, hmsg]
    | createlicense l d =>
      simp [dispatch, dispatchBody, hadmin, createLicense, makeRequest_result, hmsg]
    | deletelicense l =>
      simp [dispatch, dispatchBody, hadmin, deleteLicense, makeRequest_result, hmsg]
    | uselicense l u =>
      by_cases h1 : jsTrim l = ""
      · simp [dispatch, dispatchBody, hadmin, h1]
      · by_cases h2 : jsTrim u = "" <;>
          simp [dispatch, dispatchBody, hadmin, h1, h2, useLicense, makeRequest_result, hmsg]
    | extendsub u sub d =>
      by_cases h1 : jsTrim u = ""
      · simp [dispatch, dispatchBody, hadmin, h1]
      · by_cases h2 : jsTrim sub = "" <;>
          simp [dispatch, dispatchBody, hadmin, h1, h2, extendSubscription, makeRequest_result, hmsg]
    | stats =>
      simp [dispatch, dispatchBody, hadmin, getStats, makeRequest_result, hmsg]
    | unknown =>
      simp [dispatch, dispatchBody, hadmin]
  · intro hreach
    cases cmd with
    | user u =>
      have h : ¬ jsTrim u = "" := by simpa [reachesClient] using hreach
      simp [dispatch, dispatchBody, hadmin, h, getUserInfo, makeRequest_result, hmsg]
    | ban u =>
      have h : ¬ jsTrim u = "" := by simpa [reachesClient] using hreach
      simp [dispatch, dispatchBody, hadmin, h, banUser, makeRequest_result, hmsg]
    | unban u =>
      have h : ¬ jsTrim u = "" := by simpa [reachesClient] using hreach
      simp [dispatch, dispatchBody, hadmin, h, unbanUser, makeRequest_result, hmsg]
    | deleteuser u =>
      have h : ¬ jsTrim u = "" := by simpa [reachesClient] using hreach
      simp [dispatch, dispatchBody, hadmin, h, deleteUser, makeRequest_result, hmsg]
    | resethwid u =>
      have h : ¬ jsTrim u = "" := by simpa [reachesClient] using hreach
      simp [dispatch, dispatchBody, hadmin, h, resetHWID, makeRequest_result, hmsg]
    | createlicense l d =>
      simp [dispatch, dispatchBody, hadmin, createLicense, makeRequest_result, hmsg]
    | deletelicense l =>
      simp [dispatch, dispatchBody, hadmin, deleteLicense, makeRequest_result, hmsg]
    | uselicense l u =>
      have h : ¬ jsTrim l = "" ∧ ¬ jsTrim u = "" := by
        simpa [reachesClient] using hreach
      simp [dispatch, dispatchBody, hadmin, h.1, h.2, useLicense, makeRequest_result, hmsg]
    | extendsub u sub d =>
      have h : ¬ jsTrim u = "" ∧ ¬ jsTrim sub = "" := by
        simpa [reachesClient] using hreach
      simp [dispatch, dispatchBody, hadmin, h.1, h.2, extendSubscription, makeRequest_result, hmsg]
    | stats =>
      simp [dispatch, dispatchBody, hadmin, getStats, makeRequest_result, hmsg]
    | unknown =>
      simp [reachesClient] at hreach
  
/-- Witness for C5: an HTTP 500 on a ban invocation yields exactly the
one wrapped error notification. -/
theorem transport_error_boundary_witness :
    (∀ ty params, (makeRequest stubStateS stubWorldHttp500 ty params).result =
      .error "KeyAuth API request failed: HTTP 500: Internal Server Error") ∧
    (dispatch ["a"] "a" (.ban "bob") stubStateS stubWorldHttp500).replies.length = 1 ∧
    (dispatch ["a"] "a" (.ban "bob") stubStateS stubWorldHttp500).replies =
      [createEmbed "❌ Error"
        "An error occurred: KeyAuth API request failed: HTTP 500: Internal Server Error" 0xFF0000] := by
  have h := transport_error_boundary ["a"] "a" (.ban "bob") stubStateS stubWorldHttp500
    "KeyAuth API request failed: HTTP 500: Internal Server Error" (by decide) (by decide)
  exact ⟨h.1, h.2.2.2.1, h.2.2.2.2 (by decide)⟩

/-- C6: Every dispatched operation result translates uniformly: success
gives the positive title and green color, failure the error title and
red; the description is the response message when present and nonempty,
else the templated success string (mentioning the arguments) or the
per-command failure string; shown on the shared translation and on the
ban and createlicense commands.  Concretely, createlicense ABC-123 for 30
days against a stub returning bare success yields the positive
notification whose description contains the literals ABC-123 and 30. -/
theorem result_translation (ids : List String) (caller : String) (st : ClientState)
    (w : World) (r : KeyAuthResponse)
    (hadmin : isAdmin ids caller = true) (hok : w.fetchOutcome = .ok r) :
    (∀ title okMsg failMsg m, r.message = some m → m ≠ "" →
      resultEmbed title okMsg failMsg r =
        createEmbed (if r.success then title else "❌ Error") m
          (if r.success then 0x00FF00 else 0xFF0000)) ∧
    (∀ title okMsg failMsg, r.message = none →
      resultEmbed title okMsg failMsg r =
        createEmbed (if r.success then title else "❌ Error")
          (if r.success then okMsg else failMsg)
          (if r.success then 0x00FF00 else 0xFF0000)) ∧
    (∀ u, jsTrim u ≠ "" →
      (dispatch ids caller (.ban u) st w).replies =
        [resultEmbed "✅ User Banned" ("User " ++ jsTrim u ++ " has been banned.")
          "Failed to ban user" r]) ∧
    (∀ l d, (dispatch ids caller (.createlicense l d) st w).replies =
      [resultEmbed "✅ License Created"
        ("License " ++ l ++ " created for " ++ toString d ++ " days.")
        "Failed to create license" r]) ∧
    ((dispatch ["a"] "a" (.createlicense "ABC-123" 30) stubStateS stubWorldOk).replies =
      [createEmbed "✅ License Created" "License ABC-123 created for 30 days." 0x00FF00]) ∧
    strContainsSub "License ABC-123 created for 30 days." "ABC-123" = true ∧
    strContainsSub "License ABC-123 created for 30 days." "30" = true := by
  refine ⟨?_, ?_, ?_, ?_, by decide, by decide, by decide⟩
  · intro title okMsg failMsg m hm hne
    simp [resultEmbed, jsOr, hm, hne]
  · intro title okMsg failMsg hm
    simp [resultEmbed, jsOr, hm]
  · intro u hu
    simp [dispatch, dispatchBody, hadmin, hu, banUser, makeRequest_result, hok, fetchResult]
  · intro l d
    simp [dispatch, dispatchBody, hadmin, createLicense, makeRequest_result, hok, fetchResult]

/-- Witness for C6 at a concrete response carrying a message: the ban
reply uses the message verbatim with the failure color. -/
theorem result_translation_witness :
    resultEmbed "✅ User Banned" "User bob has been banned." "Failed to ban user"
        { success := false, message := some "user not found" } =
      createEmbed "❌ Error" "user not found" 0xFF0000 ∧
    (dispatch ["a"] "a" (.ban "bob") stubStateS stubWorldOk).replies =
      [resultEmbed "✅ User Banned" "User bob has been banned." "Failed to ban user"
        { success := true }] := by
  have h := result_translation ["a"] "a" stubStateS stubWorldOk { success := true }
    (by decide) rfl
  have h1 := result_translation ["a"] "a" stubStateS
    { initOutcome := .body true (some "SID"), fallbackUuid := "FB"
      fetchOutcome := .ok { success := false, message := some "user not found" }
      fmtDate := fun s => s }
    { success := false, message := some "user not found" } (by decide) rfl
  refine ⟨?_, ?_⟩
  · simpa using h1.1 "✅ User Banned" "User bob has been banned." "Failed to ban user"
      "user not found" rfl (by decide)
  · simpa using h.2.2.1 "bob" (by decide)

/-- C7: With an active session s, every operation of the catalog issues
exactly one request whose form body holds type, sessionid, name and
ownerid followed by the operation-specific parameters, the day counts of
createLicense and extendSubscription serialized as decimal strings via
toString. -/
theorem request_body_shape (st : ClientState) (w : World) (s : String)
    (h : st.sessionId = some s) :
    (∀ u, (getUserInfo st w u).trace = [.op [("type", "user"), ("sessionid", s),
      ("name", st.config.name), ("ownerid", st.config.ownerid), ("username", u)]]) ∧
    (∀ u, (banUser st w u).trace = [.op [("type", "ban"), ("sessionid", s),
      ("name", st.config.name), ("ownerid", st.config.ownerid), ("username", u)]]) ∧
    (∀ u, (unbanUser st w u).trace = [.op [("type", "unban"), ("sessionid", s),
      ("name", st.config.name), ("ownerid", st.config.ownerid), ("username", u)]]) ∧
    (∀ u, (deleteUser st w u).trace = [.op [("type", "deleteuser"), ("sessionid", s),
      ("name", st.config.name), ("ownerid", st.config.ownerid), ("username", u)]]) ∧
    (∀ u, (resetHWID st w u).trace = [.op [("type", "resetuser"), ("sessionid", s),
      ("name", st.config.name), ("ownerid", st.config.ownerid), ("username", u)]]) ∧
    (∀ l d, (createLicense st w l d).trace = [.op [("type", "add"), ("sessionid", s),
      ("name", st.config.name), ("ownerid", st.config.ownerid),
      ("key", l), ("days", toString d)]]) ∧
    (∀ l, (deleteLicense st w l).trace = [.op [("type", "delete"), ("sessionid", s),
      ("name", st.config.name), ("ownerid", st.config.ownerid), ("key", l)]]) ∧
    (∀ l u, (useLicense st w l u).trace = [.op [("type", "use"), ("sessionid", s),
      ("name", st.config.name), ("ownerid", st.config.ownerid),
      ("key", l), ("username", u)]]) ∧
    (∀ u sub d, (extendSubscription st w u sub d).trace = [.op [("type", "extend"),
      ("sessionid", s), ("name", st.config.name), ("ownerid", st.config.ownerid),
      ("username", u), ("subscription", sub), ("days", toString d)]]) ∧
    ((getStats st w).trace = [.op [("type", "stats"), ("sessionid", s),
      ("name", st.config.name), ("ownerid", st.config.ownerid)]]) ∧
    (∀ wh, (setWebhook st w wh).trace = [.op [("type", "webhook"), ("sessionid", s),
      ("name", st.config.name), ("ownerid", st.config.ownerid), ("webhook", wh)]]) ∧
    (∀ ch, (addChannel st w ch).trace = [.op [("type", "addchannel"), ("sessionid", s),
      ("name", st.config.name), ("ownerid", st.config.ownerid), ("channel", ch)]]) ∧
    (∀ ch, (deleteChannel st w ch).trace = [.op [("type", "deletechannel"), ("sessionid", s),
      ("name", st.config.name), ("ownerid", st.config.ownerid), ("channel", ch)]]) := by
  refine ⟨?_, ?_, ?_, ?_, ?_, ?_, ?_, ?_, ?_, ?_, ?_, ?_, ?_⟩ <;>
    intros <;>
    simp [getUserInfo, banUser, unbanUser, deleteUser, resetHWID, createLicense,
      deleteLicense, useLicense, extendSubscription, getStats, setWebhook,
      addChannel, deleteChannel, makeRequest, getSessionId, h, buildBody, setKey]

/-- Witness for C7: concrete bodies of a user lookup and a createlicense
with the cached session S. -/
theorem request_body_shape_witness :
    (getUserInfo stubStateS stubWorldOk "bob").trace =
      [.op [("type", "user"), ("sessionid", "S"), ("name", "app"), ("ownerid", "own"),
        ("username", "bob")]] ∧
    (createLicense stubStateS stubWorldOk "K-1" 30).trace =
      [.op [("type", "add"), ("sessionid", "S"), ("name", "app"), ("ownerid", "own"),
        ("key", "K-1"), ("days", "30")]] := by
  have h := request_body_shape stubStateS stubWorldOk "S" rfl
  exact ⟨h.1 "bob", by simpa using h.2.2.2.2.2.1 "K-1" 30⟩

/-- C8 counterexample: the Created and Last Login fields are not the info
values verbatim.  The dispatcher renders them through the Date
constructor and toLocaleDateString (the World date renderer); at an
environment whose renderer returns FORMATTED-DATE, a user lookup whose
info carries createdate 2021-01-02 produces a Created field holding
FORMATTED-DATE, not the verbatim stored value. -/
theorem user_fields_verbatim_counterexample :
    (dispatch ["a"] "a" (.user "alice") stubStateS stubWorldUser).replies =
      [userEmbed fmtStub "alice" stubUserInfo] ∧
    (userEmbed fmtStub "alice" stubUserInfo).fields.lookup "Created" =
      some "FORMATTED-DATE" ∧
    stubUserInfo.createdate = some "2021-01-02" ∧
    ("FORMATTED-DATE" : String) ≠ "2021-01-02" := by
  decide

/-- C8 amended: for a user lookup returning success with an info payload,
the notification carries exactly the fields Username, IP Address, HWID,
Created and Last Login (before any optional Subscriptions field), where
Username, IP Address and HWID hold the info value verbatim when present
and nonempty and the string N/A otherwise, while Created and Last Login
hold the locale date rendering of the info value when present and
nonempty and N/A otherwise. -/
theorem user_embed_fields (ids : List String) (caller : String) (st : ClientState)
    (w : World) (u : String) (r : KeyAuthResponse) (i : Info)
    (hadmin : isAdmin ids caller = true) (hu : jsTrim u ≠ "")
    (hok : w.fetchOutcome = .ok r) (hs : r.success = true) (hi : r.info = some i) :
    (dispatch ids caller (.user u) st w).replies = [userEmbed w.fmtDate (jsTrim u) i] ∧
    (userEmbed w.fmtDate (jsTrim u) i).fields.take 5 =
      [("Username", match i.username with
          | some v => if v = "" then "N/A" else v
          | none => "N/A"),
       ("IP Address", match i.ip with
          | some v => if v = "" then "N/A" else v
          | none => "N/A"),
       ("HWID", match i.hwid with
          | some v => if v = "" then "N/A" else v
          | none => "N/A"),
       ("Created", match i.createdate with
          | some v => if v = "" then "N/A" else w.fmtDate v
          | none => "N/A"),
       ("Last Login", match i.lastlogin with
          | some v => if v = "" then "N/A" else w.fmtDate v
          | none => "N/A")] := by
  constructor
  · simp [dispatch, dispatchBody, hadmin, hu, getUserInfo, makeRequest_result, hok,
      fetchResult, hs, hi]
  · rfl

/-- Witness for the amended C8 at the stub payload. -/
theorem user_embed_fields_witness :
    (dispatch ["a"] "a" (.user "alice") stubStateS stubWorldUser).replies =
      [userEmbed fmtStub "alice" stubUserInfo] ∧
    (userEmbed fmtStub "alice" stubUserInfo).fields.take 5 =
      [("Username", "alice"), ("IP Address", "1.2.3.4"), ("HWID", "HW-1"),
       ("Created", "FORMATTED-DATE"), ("Last Login", "FORMATTED-DATE")] := by
  have h := user_embed_fields ["a"] "a" stubStateS stubWorldUser "alice"
    { success := true, info := some stubUserInfo } stubUserInfo
    (by decide) (by decide) rfl rfl rfl
  exact ⟨by simpa using h.1, by simpa using h.2⟩

/-- C9: The client constructor fails exactly when one of the two
mandatory configuration values (application name, owner id) is missing or
empty; when both are present and nonempty it succeeds with those values,
applying the defaults 2.0 for the version and the KeyAuth endpoint URL
for the url when those are absent, and the resulting client is still
Uninitialized — no session exists, and in this embedding requests arise
only from makeRequest, so construction performs no network call. -/
theorem constructor_validation (env : Env) :
    ((∃ e, mkClient env = .error e) ↔
      ((env.keyauthName = none ∨ env.keyauthName = some "") ∨
       (env.keyauthOwnerId = none ∨ env.keyauthOwnerId = some ""))) ∧
    (∀ n o, env.keyauthName = some n → n ≠ "" →
      env.keyauthOwnerId = some o → o ≠ "" →
      mkClient env = .ok
        { config :=
            { name := n, ownerid := o
              version := jsOr env.keyauthVersion "2.0"
              url := jsOr env.keyauthUrl "https://keyauth.win/api/1.3/" }
          sessionId := none }) ∧
    (env.keyauthVersion = none → (mkConfig env).version = "2.0") ∧
    (env.keyauthUrl = none → (mkConfig env).url = "https://keyauth.win/api/1.3/") := by
  have hempty : ∀ (o : Option String), (jsOr o "" = "") ↔ (o = none ∨ o = some "") := by
    intro o
    cases o with
    | none => simp [jsOr]
    | some v =>
      by_cases hv : v = "" <;> simp [jsOr, hv]
  refine ⟨?_, ?_, ?_, ?_⟩
  · by_cases hc : (mkConfig env).name = "" ∨ (mkConfig env).ownerid = ""
    · constructor
      · intro _
        rw [← hempty env.keyauthName, ← hempty env.keyauthOwnerId]
        exact hc
      · intro _
        refine ⟨"KeyAuth configuration is missing. Please set KEYAUTH_NAME and KEYAUTH_OWNER_ID environment variables.", ?_⟩
        unfold mkClient
        rcases hc with hc | hc <;> simp [hc]
    · push_neg at hc
      constructor
      · intro ⟨e, he⟩
        unfold mkClient at he
        simp [hc.1, hc.2] at he
      · intro hmem
        exfalso
        rw [← hempty env.keyauthName, ← hempty env.keyauthOwnerId] at hmem
        rcases hmem with hmem | hmem
        exacts [hc.1 hmem, hc.2 hmem]
  · intro n o hn hne ho hoe
    have hcfg : mkConfig env =
        { name := n, ownerid := o
          version := jsOr env.keyauthVersion "2.0"
          url := jsOr env.keyauthUrl "https://keyauth.win/api/1.3/" } := by
      simp [mkConfig, jsOr, hn, ho, hne, hoe]
    simp [mkClient, hcfg, hne, hoe]
  · intro hv; simp [mkConfig, jsOr, hv]
  · intro hu; simp [mkConfig, jsOr, hu]

/-- Witness for C9: a complete environment yields the defaulted config
with no session; an empty environment yields the construction error. -/
theorem constructor_validation_witness :
    mkClient { keyauthName := some "app", keyauthOwnerId := some "own" } =
      .ok { config := { name := "app", ownerid := "own", version := "2.0"
                        url := "https://keyauth.win/api/1.3/" }
            sessionId := none } ∧
    (∃ e, mkClient { keyauthName := none, keyauthOwnerId := none } = .error e) := by
  constructor
  · simpa using
      (constructor_validation { keyauthName := some "app", keyauthOwnerId := some "own" }).2.1
        "app" "own" rfl (by decide) rfl (by decide)
  · exact (constructor_validation { keyauthName := none, keyauthOwnerId := none }).1.mpr
      (.inl (.inl rfl))

/-- C10: For the user and stats commands, a response with a truthy
success flag but an absent info payload (and likewise any response whose
success flag is falsy) produces the negative error notification built
from the response message when present and nonempty, else the
per-command fallback string — never the positive info notification. -/
theorem info_guard (ids : List String) (caller : String) (st : ClientState)
    (w : World) (u : String) (r : KeyAuthResponse)
    (hadmin : isAdmin ids caller = true) (hu : jsTrim u ≠ "")
    (hok : w.fetchOutcome = .ok r)
    (hcond : r.success = false ∨ r.info = none) :
    (dispatch ids caller (.user u) st w).replies =
      [createEmbed "❌ Error" (jsOr r.message "User not found") 0xFF0000] ∧
    (dispatch ids caller .stats st w).replies =
      [createEmbed "❌ Error" (jsOr r.message "Failed to fetch statistics") 0xFF0000] := by
  rcases hcond with hc | hc <;>
    constructor <;>
    simp [dispatch, dispatchBody, hadmin, hu, getUserInfo, getStats,
      makeRequest_result, hok, fetchResult, hc]

/-- Witness for C10: a bare success with no info on a user lookup and on
stats yields the fallback error notifications. -/
theorem info_guard_witness :
    (dispatch ["a"] "a" (.user "alice") stubStateS stubWorldNoInfo).replies =
      [createEmbed "❌ Error" "User not found" 0xFF0000] ∧
    (dispatch ["a"] "a" .stats stubStateS stubWorldNoInfo).replies =
      [createEmbed "❌ Error" "Failed to fetch statistics" 0xFF0000] := by
  have h := info_guard ["a"] "a" stubStateS stubWorldNoInfo "alice"
    { success := true } (by decide) (by decide) rfl (.inr rfl)
  exact ⟨by simpa using h.1, by simpa using h.2⟩

end AdminBot
